import Mathlib

/-!
Verification of the Penglai secure-monitor ecall dispatch surface and the IMA
securityfs interface, as shallowly embedded from the repository sources
(src/openeuler-kernel/security/integrity/ima/ima_fs.c, which also carries the
opensbi-0.6 sbi_ecall_base.c translation unit with the Penglai monitor cases).
-/

/-! ### SBI base-extension dispatcher (sbi_ecall_base.c part of the source) -/

/-- Function ids of the standard SBI base extension. The numeric values are
fixed by the SBI specification (chapter Base Extension) and mirrored by
sbi_ecall_interface.h. -/
def SBI_EXT_BASE_GET_SPEC_VERSION : Nat := 0

def SBI_EXT_BASE_GET_IMP_ID : Nat := 1

def SBI_EXT_BASE_GET_IMP_VERSION : Nat := 2

def SBI_EXT_BASE_PROBE_EXT : Nat := 3

def SBI_EXT_BASE_GET_MVENDORID : Nat := 4

def SBI_EXT_BASE_GET_MARCHID : Nat := 5

def SBI_EXT_BASE_GET_MIMPID : Nat := 6

/-- Modelled from the spec: the numeric values of the six Penglai monitor
function ids are defined in sbi_ecall_interface.h, which is not part of the
source tree. Only their distinctness from each other and from the seven
standard base ids is observable in the dispatcher (the C switch requires
distinct case labels to compile); the concrete values below are
representatives of any such assignment. -/
def SBI_MM_INIT : Nat := 100

def SBI_MEMORY_EXTEND : Nat := 101

def SBI_ALLOC_ENCLAVE_MM : Nat := 102

def SBI_CREATE_ENCLAVE : Nat := 103

def SBI_RUN_ENCLAVE : Nat := 104

def SBI_EXIT_ENCLAVE : Nat := 105

/-- Modelled from the spec: sbi_error.h is not part of the source tree; the
spec only requires the not-supported status to be a negative status code, and
opensbi uses -2. -/
def SBI_ENOTSUPP : Int := -2

/-- C conversion of a 64-bit unsigned value (uintptr_t) into the 32-bit signed
int used for the local variable ret of the dispatcher (gcc-defined modular
conversion: the low 32 bits, reinterpreted in two-complement). -/
def intOfUIntPtr (v : Nat) : Int :=
  if v % 2 ^ 32 < 2 ^ 31 then ((v % 2 ^ 32 : Nat) : Int)
  else ((v % 2 ^ 32 : Nat) : Int) - 2 ^ 32

/-- Outcome of an extension probe callback: the int it returns and the value
it stores through out_val (none when it leaves out_val untouched). -/
structure ProbeRes where
  ret : Int
  out_val : Option Nat

/-- A registered SBI ecall extension, as far as sbi_ecall_base_probe looks at
it: an optional probe callback (the handle member plays no role there). -/
structure SbiEcallExtension where
  probe : Option (Nat → ProbeRes)

/-- Environment of the dispatcher: the externally linked Penglai handlers
(declared extern in the source with these exact signatures), the registered
extension table consulted by sbi_ecall_find_extension, and the machine and
build constants read by the base cases. -/
structure SbiEnv where
  find_extension : Nat → Option SbiEcallExtension
  sm_mm_init : Nat → Nat → Nat
  sm_mm_extend : Nat → Nat → Nat
  sm_alloc_enclave_mem : Nat → Nat
  sm_create_enclave : Nat → Nat
  sm_run_enclave : Nat → Nat → Nat
  sm_exit_enclave : Nat → Nat → Nat
  spec_version : Nat
  impl_id : Nat
  impl_version : Nat
  csr_mvendorid : Nat
  csr_marchid : Nat
  csr_mimpid : Nat

/-- One call made by the dispatcher into a Penglai monitor handler, with the
argument values in the positions fixed by the extern declarations
(sm_run_enclave takes the register-save-area pointer first and the enclave id
second; sm_exit_enclave takes the pointer first and the return value second). -/
inductive HandlerCall where
  | mmInit (paddr size : Nat)
  | mmExtend (paddr size : Nat)
  | allocEnclaveMem (mm_alloc_arg : Nat)
  | createEnclave (enclave_sbi_param : Nat)
  | runEnclave (regs eid : Nat)
  | exitEnclave (regs retval : Nat)
deriving DecidableEq

/-- Observable outcome of one dispatcher invocation: the int it returns, the
value stored through out_val (none when out_val is never written), and the
monitor handler calls it performed, in order. -/
structure EcallResult where
  ret : Int
  out_val : Option Nat
  calls : List HandlerCall
deriving DecidableEq

/-- Shallow embedding of sbi_ecall_base_probe: look the extension id up in the
registered-extension table; when absent store 0 and succeed; when present
without a probe callback store 1 and succeed; otherwise defer to the
extension probe callback. -/
def sbi_ecall_base_probe (env : SbiEnv) (extid : Nat) : ProbeRes :=
  match env.find_extension extid with
  | none => ⟨0, some 0⟩
  | some ext =>
    match ext.probe with
    | some p => p extid
    | none => ⟨0, some 1⟩

/-- Shallow embedding of sbi_ecall_base_handler: the switch on funcid. Each
branch mirrors the corresponding case of the C switch; the Penglai cases
assign the uintptr_t handler result to the int variable ret (modelled by
intOfUIntPtr) and never touch out_val; the default case yields SBI_ENOTSUPP
with no handler call and no out_val write. -/
def sbi_ecall_base_handler (env : SbiEnv) (funcid : Nat) (args : Nat → Nat) :
    EcallResult :=
  if funcid = SBI_EXT_BASE_GET_SPEC_VERSION then ⟨0, some env.spec_version, []⟩
  else if funcid = SBI_EXT_BASE_GET_IMP_ID then ⟨0, some env.impl_id, []⟩
  else if funcid = SBI_EXT_BASE_GET_IMP_VERSION then ⟨0, some env.impl_version, []⟩
  else if funcid = SBI_EXT_BASE_GET_MVENDORID then ⟨0, some env.csr_mvendorid, []⟩
  else if funcid = SBI_EXT_BASE_GET_MARCHID then ⟨0, some env.csr_marchid, []⟩
  else if funcid = SBI_EXT_BASE_GET_MIMPID then ⟨0, some env.csr_mimpid, []⟩
  else if funcid = SBI_EXT_BASE_PROBE_EXT then
    let r := sbi_ecall_base_probe env (args 0)
    ⟨r.ret, r.out_val, []⟩
  else if funcid = SBI_MM_INIT then
    ⟨intOfUIntPtr (env.sm_mm_init (args 0) (args 1)), none,
      [HandlerCall.mmInit (args 0) (args 1)]⟩
  else if funcid = SBI_MEMORY_EXTEND then
    ⟨intOfUIntPtr (env.sm_mm_extend (args 0) (args 1)), none,
      [HandlerCall.mmExtend (args 0) (args 1)]⟩
  else if funcid = SBI_ALLOC_ENCLAVE_MM then
    ⟨intOfUIntPtr (env.sm_alloc_enclave_mem (args 0)), none,
      [HandlerCall.allocEnclaveMem (args 0)]⟩
  else if funcid = SBI_CREATE_ENCLAVE then
    ⟨intOfUIntPtr (env.sm_create_enclave (args 0)), none,
      [HandlerCall.createEnclave (args 0)]⟩
  else if funcid = SBI_RUN_ENCLAVE then
    ⟨intOfUIntPtr (env.sm_run_enclave (args 5) (args 0)), none,
      [HandlerCall.runEnclave (args 5) (args 0)]⟩
  else if funcid = SBI_EXIT_ENCLAVE then
    ⟨intOfUIntPtr (env.sm_exit_enclave (args 5) (args 0)), none,
      [HandlerCall.exitEnclave (args 5) (args 0)]⟩
  else ⟨SBI_ENOTSUPP, none, []⟩

/-- The thirteen function ids recognized by the base-extension switch. -/
def baseRecognizedFuncids : List Nat :=
  [SBI_EXT_BASE_GET_SPEC_VERSION, SBI_EXT_BASE_GET_IMP_ID,
   SBI_EXT_BASE_GET_IMP_VERSION, SBI_EXT_BASE_GET_MVENDORID,
   SBI_EXT_BASE_GET_MARCHID, SBI_EXT_BASE_GET_MIMPID, SBI_EXT_BASE_PROBE_EXT,
   SBI_MM_INIT, SBI_MEMORY_EXTEND, SBI_ALLOC_ENCLAVE_MM, SBI_CREATE_ENCLAVE,
   SBI_RUN_ENCLAVE, SBI_EXIT_ENCLAVE]

/-- The six monitor operations of the Penglai extension of the switch. -/
def monitorFuncids : List Nat :=
  [SBI_MM_INIT, SBI_MEMORY_EXTEND, SBI_ALLOC_ENCLAVE_MM, SBI_CREATE_ENCLAVE,
   SBI_RUN_ENCLAVE, SBI_EXIT_ENCLAVE]

/-- A concrete environment with trivial handlers, used to instantiate
universally quantified theorems at concrete inputs. -/
def defaultSbiEnv : SbiEnv where
  find_extension := fun _ => none
  sm_mm_init := fun _ _ => 0
  sm_mm_extend := fun _ _ => 0
  sm_alloc_enclave_mem := fun _ => 0
  sm_create_enclave := fun _ => 0
  sm_run_enclave := fun _ _ => 0
  sm_exit_enclave := fun _ _ => 0
  spec_version := 0
  impl_id := 0
  impl_version := 0
  csr_mvendorid := 0
  csr_marchid := 0
  csr_mimpid := 0

/-- Helper: the int conversion is the identity on values below 2 to the 31. -/
lemma intOfUIntPtr_eq_of_lt (v : Nat) (hv : v < 2 ^ 31) :
    intOfUIntPtr v = (v : Int) := by
  unfold intOfUIntPtr
  have h32 : v % 2 ^ 32 = v := Nat.mod_eq_of_lt (lt_trans hv (by norm_num))
  rw [h32, if_pos hv]

/-- Helper: on an unrecognized function id the switch falls to default. -/
lemma dispatch_default (env : SbiEnv) (funcid : Nat) (args : Nat → Nat)
    (h : funcid ∉ baseRecognizedFuncids) :
    sbi_ecall_base_handler env funcid args = ⟨SBI_ENOTSUPP, none, []⟩ := by
  simp only [baseRecognizedFuncids, List.mem_cons, List.not_mem_nil, or_false,
    not_or] at h
  obtain ⟨n1, n2, n3, n4, n5, n6, n7, n8, n9, n10, n11, n12, n13⟩ := h
  simp only [sbi_ecall_base_handler]
  rw [if_neg n1, if_neg n2, if_neg n3, if_neg n4, if_neg n5, if_neg n6,
    if_neg n7, if_neg n8, if_neg n9, if_neg n10, if_neg n11, if_neg n12,
    if_neg n13]

/-- Helper: characterization of which function ids reach a monitor handler. -/
lemma dispatch_calls_iff (env : SbiEnv) (funcid : Nat) (args : Nat → Nat) :
    (sbi_ecall_base_handler env funcid args).calls ≠ [] ↔
      funcid ∈ monitorFuncids := by
  constructor
  · intro hne
    by_cases hb : funcid ∈ baseRecognizedFuncids
    · simp only [baseRecognizedFuncids, List.mem_cons, List.not_mem_nil,
        or_false] at hb
      rcases hb with h|h|h|h|h|h|h|h|h|h|h|h|h <;> subst h <;>
        first
          | exact absurd rfl hne
          | decide
    · rw [dispatch_default env funcid args hb] at hne
      exact absurd rfl hne
  · intro hmem
    simp only [monitorFuncids, List.mem_cons, List.not_mem_nil, or_false]
      at hmem
    rcases hmem with h|h|h|h|h|h <;> subst h <;>
      exact fun hc => List.cons_ne_nil _ _ hc

/-! ### Spec-modelled control transfer for run/exit (bodies outside src) -/

/-- The principal whose memory a hart is executing in. -/
inductive Principal where
  | host
  | enclave (eid : Nat)
deriving DecidableEq

/-- Execution side of one hart: which principal currently runs, and the
return value last delivered to the host. -/
structure ControlState where
  current : Principal
  hostRetval : Option Nat
deriving DecidableEq

/-- Modelled from the spec: the body of sm_run_enclave is not under src (only
its extern declaration is); per the spec the run ecall does not return
normally to the host but switches the hart into the enclave, the host being
resumed only on a later enclave exit or trap. -/
def sm_run_enclave_ctl (eid : Nat) (s : ControlState) : ControlState :=
  { current := Principal.enclave eid, hostRetval := s.hostRetval }

/-- Modelled from the spec: the body of sm_exit_enclave is not under src; per
the spec the exit ecall transfers execution back to the host, delivering the
given return value to it. -/
def sm_exit_enclave_ctl (retval : Nat) (_s : ControlState) : ControlState :=
  { current := Principal.host, hostRetval := some retval }

/-! ### Claims C1 to C6 and C10 about the dispatcher -/

/-- Claim C1, counterexample: the claim states that the register-save-area
pointer (argument word 5) of a run or exit ecall is validated before being
handed to the run/exit handlers. It is false at the concrete input args = 0:
the dispatcher invokes sm_run_enclave, and sm_exit_enclave, with the
register-save-area pointer 0 (a null, out-of-range pointer), so an
unvalidated pointer does reach a handler. -/
theorem run_exit_null_pointer_reaches_handler :
    (sbi_ecall_base_handler defaultSbiEnv SBI_RUN_ENCLAVE (fun _ => 0)).calls =
      [HandlerCall.runEnclave 0 0] ∧
    (sbi_ecall_base_handler defaultSbiEnv SBI_EXIT_ENCLAVE (fun _ => 0)).calls =
      [HandlerCall.exitEnclave 0 0] :=
  ⟨rfl, rfl⟩

/-- Claim C1, amended: the dispatcher performs no validation of the
register-save-area argument at all. For every environment and every argument
vector, the run ecall passes argument word 5 unchanged as the register-save
pointer (with word 0 as enclave id), and the exit ecall passes argument word 5
unchanged as the register-save pointer (with word 0 as return value); no value
of word 5 is rejected. -/
theorem run_exit_regs_pointer_passed_unvalidated (env : SbiEnv)
    (args : Nat → Nat) :
    (sbi_ecall_base_handler env SBI_RUN_ENCLAVE args).calls =
      [HandlerCall.runEnclave (args 5) (args 0)] ∧
    (sbi_ecall_base_handler env SBI_EXIT_ENCLAVE args).calls =
      [HandlerCall.exitEnclave (args 5) (args 0)] :=
  ⟨rfl, rfl⟩

/-- Claim C2: for every function id outside the recognized set of the
base-extension switch, the dispatcher yields the negative not-supported
status SBI_ENOTSUPP, invokes no handler, and does not write out_val. -/
theorem unknown_funcid_not_supported (env : SbiEnv) (funcid : Nat)
    (args : Nat → Nat) (h : funcid ∉ baseRecognizedFuncids) :
    sbi_ecall_base_handler env funcid args = ⟨SBI_ENOTSUPP, none, []⟩ ∧
      SBI_ENOTSUPP < 0 :=
  ⟨dispatch_default env funcid args h, by decide⟩

/-- Claim C2, witness at the concrete unrecognized function id 7. -/
theorem unknown_funcid_not_supported_witness :
    (7 : Nat) ∉ baseRecognizedFuncids ∧
      (sbi_ecall_base_handler defaultSbiEnv 7 (fun _ => 0) =
          ⟨SBI_ENOTSUPP, none, []⟩ ∧
        SBI_ENOTSUPP < 0) :=
  ⟨by decide, unknown_funcid_not_supported defaultSbiEnv 7 (fun _ => 0)
    (by decide)⟩

/-- Environment refuting exact result propagation for the create case. -/
def createCexEnv : SbiEnv :=
  { defaultSbiEnv with sm_create_enclave := fun _ => 2 ^ 32 }

/-- Claim C3, counterexample: the claim states the handler result is written
as the return value of the ecall. The dispatcher stores the uintptr_t handler
result in a 32-bit int variable, so a create handler returning 2 to the 32
yields ecall result 0, not the handler result. -/
theorem create_result_not_handler_result :
    createCexEnv.sm_create_enclave 0 = 2 ^ 32 ∧
    (sbi_ecall_base_handler createCexEnv SBI_CREATE_ENCLAVE (fun _ => 0)).ret
      = 0 ∧
    (sbi_ecall_base_handler createCexEnv SBI_CREATE_ENCLAVE (fun _ => 0)).ret
      ≠ ((createCexEnv.sm_create_enclave 0 : Nat) : Int) :=
  ⟨rfl, by decide, by decide⟩

/-- Claim C3, amended: the dispatcher triggers a monitor-handler call exactly
for the six monitor function ids (memory-pool init, memory-pool extend,
enclave-memory allocate, enclave create, enclave run, enclave exit); each
such call invokes the corresponding handler exactly once, synchronously,
writes nothing through out_val, and returns, as the single return value of
the ecall, the handler result converted to the 32-bit signed int type of the
ret variable (equal to the handler result whenever that fits the int range). -/
theorem dispatcher_six_monitor_operations (env : SbiEnv) (funcid : Nat)
    (args : Nat → Nat) :
    monitorFuncids.length = 6 ∧ monitorFuncids.Nodup ∧
    ((sbi_ecall_base_handler env funcid args).calls ≠ [] ↔
      funcid ∈ monitorFuncids) ∧
    sbi_ecall_base_handler env SBI_MM_INIT args =
      ⟨intOfUIntPtr (env.sm_mm_init (args 0) (args 1)), none,
        [HandlerCall.mmInit (args 0) (args 1)]⟩ ∧
    sbi_ecall_base_handler env SBI_MEMORY_EXTEND args =
      ⟨intOfUIntPtr (env.sm_mm_extend (args 0) (args 1)), none,
        [HandlerCall.mmExtend (args 0) (args 1)]⟩ ∧
    sbi_ecall_base_handler env SBI_ALLOC_ENCLAVE_MM args =
      ⟨intOfUIntPtr (env.sm_alloc_enclave_mem (args 0)), none,
        [HandlerCall.allocEnclaveMem (args 0)]⟩ ∧
    sbi_ecall_base_handler env SBI_CREATE_ENCLAVE args =
      ⟨intOfUIntPtr (env.sm_create_enclave (args 0)), none,
        [HandlerCall.createEnclave (args 0)]⟩ ∧
    sbi_ecall_base_handler env SBI_RUN_ENCLAVE args =
      ⟨intOfUIntPtr (env.sm_run_enclave (args 5) (args 0)), none,
        [HandlerCall.runEnclave (args 5) (args 0)]⟩ ∧
    sbi_ecall_base_handler env SBI_EXIT_ENCLAVE args =
      ⟨intOfUIntPtr (env.sm_exit_enclave (args 5) (args 0)), none,
        [HandlerCall.exitEnclave (args 5) (args 0)]⟩ :=
  ⟨by decide, by decide, dispatch_calls_iff env funcid args,
    rfl, rfl, rfl, rfl, rfl, rfl⟩

/-- Claim C3, witness: instance of the characterization at the concrete
function id SBI_MM_INIT, whose handler call list is nonempty. -/
theorem dispatcher_six_monitor_operations_witness :
    (sbi_ecall_base_handler defaultSbiEnv SBI_MM_INIT (fun _ => 0)).calls ≠ []
      ↔ SBI_MM_INIT ∈ monitorFuncids :=
  (dispatcher_six_monitor_operations defaultSbiEnv SBI_MM_INIT
    (fun _ => 0)).2.2.1

/-- Claim C4: the run ecall hands argument word 5 to sm_run_enclave as the
register-save area and word 0 as the enclave id; the exit ecall hands word 5
to sm_exit_enclave as the register-save area and word 0 as the return value.
In the spec-modelled control transfer, running leaves the hart executing the
enclave (the call does not return normally to the host), and a subsequent
exit transfers back to the host, delivering exactly the requested return
value. -/
theorem run_exit_argument_roles_and_transfer (env : SbiEnv)
    (args : Nat → Nat) (eid retval : Nat) (s : ControlState) :
    (sbi_ecall_base_handler env SBI_RUN_ENCLAVE args).calls =
      [HandlerCall.runEnclave (args 5) (args 0)] ∧
    (sbi_ecall_base_handler env SBI_EXIT_ENCLAVE args).calls =
      [HandlerCall.exitEnclave (args 5) (args 0)] ∧
    (sm_run_enclave_ctl eid s).current ≠ Principal.host ∧
    (sm_exit_enclave_ctl retval (sm_run_enclave_ctl eid s)).current =
      Principal.host ∧
    (sm_exit_enclave_ctl retval (sm_run_enclave_ctl eid s)).hostRetval =
      some retval :=
  ⟨rfl, rfl, fun h => Principal.noConfusion h, rfl, rfl⟩

/-- Claim C4, witness at enclave id 1, return value 2, host start state. -/
theorem run_exit_argument_roles_and_transfer_witness :
    (sm_run_enclave_ctl 1 ⟨Principal.host, none⟩).current ≠ Principal.host ∧
    (sm_exit_enclave_ctl 2 (sm_run_enclave_ctl 1
        ⟨Principal.host, none⟩)).hostRetval = some 2 :=
  ⟨(run_exit_argument_roles_and_transfer defaultSbiEnv (fun _ => 0) 1 2
      ⟨Principal.host, none⟩).2.2.1,
    (run_exit_argument_roles_and_transfer defaultSbiEnv (fun _ => 0) 1 2
      ⟨Principal.host, none⟩).2.2.2.2⟩

/-- Claim C10: probing an extension id never fails in the probe wrapper
itself. For every extension id: with no registered extension the wrapper
returns status 0 and stores 0 through out_val; with a registered extension
lacking a probe callback it returns status 0 and stores 1; with a probe
callback it returns exactly the outcome of that callback. -/
theorem probe_extension_cases (env : SbiEnv) (extid : Nat) :
    (env.find_extension extid = none →
      sbi_ecall_base_probe env extid = ⟨0, some 0⟩) ∧
    (∀ ext, env.find_extension extid = some ext → ext.probe = none →
      sbi_ecall_base_probe env extid = ⟨0, some 1⟩) ∧
    (∀ ext p, env.find_extension extid = some ext → ext.probe = some p →
      sbi_ecall_base_probe env extid = p extid) := by
  refine ⟨fun h => ?_, fun ext h hp => ?_, fun ext p h hp => ?_⟩ <;>
    simp [sbi_ecall_base_probe, *]

/-- Claim C10, witness in the empty extension table at extension id 0. -/
theorem probe_extension_cases_witness :
    defaultSbiEnv.find_extension 0 = none ∧
      sbi_ecall_base_probe defaultSbiEnv 0 = ⟨0, some 0⟩ :=
  ⟨rfl, (probe_extension_cases defaultSbiEnv 0).1 rfl⟩

/-- Environment refuting exact result propagation for the mm-init case. -/
def mmInitCexEnv : SbiEnv :=
  { defaultSbiEnv with sm_mm_init := fun _ _ => 2 ^ 32 }

/-- Claim C5, counterexample: the claim states the ecall result is exactly
the status value returned by the memory-manager handler. The int conversion
of the uintptr_t handler result makes it false: an init handler returning
2 to the 32 yields ecall result 0. -/
theorem mm_init_result_not_exact :
    mmInitCexEnv.sm_mm_init 0 0 = 2 ^ 32 ∧
    (sbi_ecall_base_handler mmInitCexEnv SBI_MM_INIT (fun _ => 0)).ret = 0 ∧
    (sbi_ecall_base_handler mmInitCexEnv SBI_MM_INIT (fun _ => 0)).ret ≠
      ((mmInitCexEnv.sm_mm_init 0 0 : Nat) : Int) :=
  ⟨rfl, by decide, by decide⟩

/-- Claim C5, amended: the memory-pool init and extend ecalls pass argument
word 0 as the base and word 1 as the size to sm_mm_init and sm_mm_extend
respectively, write nothing through out_val, and return the handler status
converted to the 32-bit int type of the ret variable, which is exactly the
handler value whenever it is below 2 to the 31. -/
theorem mm_init_extend_routing (env : SbiEnv) (args : Nat → Nat) :
    (sbi_ecall_base_handler env SBI_MM_INIT args).calls =
      [HandlerCall.mmInit (args 0) (args 1)] ∧
    (sbi_ecall_base_handler env SBI_MM_INIT args).ret =
      intOfUIntPtr (env.sm_mm_init (args 0) (args 1)) ∧
    (sbi_ecall_base_handler env SBI_MM_INIT args).out_val = none ∧
    (sbi_ecall_base_handler env SBI_MEMORY_EXTEND args).calls =
      [HandlerCall.mmExtend (args 0) (args 1)] ∧
    (sbi_ecall_base_handler env SBI_MEMORY_EXTEND args).ret =
      intOfUIntPtr (env.sm_mm_extend (args 0) (args 1)) ∧
    (sbi_ecall_base_handler env SBI_MEMORY_EXTEND args).out_val = none ∧
    (∀ v : Nat, v < 2 ^ 31 → intOfUIntPtr v = (v : Int)) :=
  ⟨rfl, rfl, rfl, rfl, rfl, rfl, fun v hv => intOfUIntPtr_eq_of_lt v hv⟩

/-- Claim C5, witness: the conversion clause applied at the value 5. -/
theorem mm_init_extend_routing_witness :
    (5 : Nat) < 2 ^ 31 ∧ intOfUIntPtr 5 = (5 : Int) :=
  ⟨by decide,
    (mm_init_extend_routing defaultSbiEnv (fun _ => 0)).2.2.2.2.2.2 5
      (by decide)⟩

/-- Environment refuting exact result propagation for the allocate case. -/
def allocCexEnv : SbiEnv :=
  { defaultSbiEnv with sm_alloc_enclave_mem := fun _ => 2 ^ 32 }

/-- Claim C6, counterexample: the claim states the ecall result equals
exactly the handler return value. An allocate handler returning the region
value 2 to the 32 yields ecall result 0 after the int conversion. -/
theorem alloc_result_not_exact :
    allocCexEnv.sm_alloc_enclave_mem 0 = 2 ^ 32 ∧
    (sbi_ecall_base_handler allocCexEnv SBI_ALLOC_ENCLAVE_MM
      (fun _ => 0)).ret = 0 ∧
    (sbi_ecall_base_handler allocCexEnv SBI_ALLOC_ENCLAVE_MM
      (fun _ => 0)).ret ≠ ((allocCexEnv.sm_alloc_enclave_mem 0 : Nat) : Int) :=
  ⟨rfl, by decide, by decide⟩

/-- Claim C6, amended: the allocate-enclave-memory ecall passes argument
word 0 as the allocation descriptor to sm_alloc_enclave_mem, the
create-enclave ecall passes argument word 0 as the enclave parameter block to
sm_create_enclave, neither writes out_val, and each returns the handler
result converted to the 32-bit int type of the ret variable, which is exactly
the handler value whenever it is below 2 to the 31. -/
theorem alloc_create_routing (env : SbiEnv) (args : Nat → Nat) :
    (sbi_ecall_base_handler env SBI_ALLOC_ENCLAVE_MM args).calls =
      [HandlerCall.allocEnclaveMem (args 0)] ∧
    (sbi_ecall_base_handler env SBI_ALLOC_ENCLAVE_MM args).ret =
      intOfUIntPtr (env.sm_alloc_enclave_mem (args 0)) ∧
    (sbi_ecall_base_handler env SBI_ALLOC_ENCLAVE_MM args).out_val = none ∧
    (sbi_ecall_base_handler env SBI_CREATE_ENCLAVE args).calls =
      [HandlerCall.createEnclave (args 0)] ∧
    (sbi_ecall_base_handler env SBI_CREATE_ENCLAVE args).ret =
      intOfUIntPtr (env.sm_create_enclave (args 0)) ∧
    (sbi_ecall_base_handler env SBI_CREATE_ENCLAVE args).out_val = none ∧
    (∀ v : Nat, v < 2 ^ 31 → intOfUIntPtr v = (v : Int)) :=
  ⟨rfl, rfl, rfl, rfl, rfl, rfl, fun v hv => intOfUIntPtr_eq_of_lt v hv⟩

/-- Claim C6, witness: the conversion clause applied at the value 7. -/
theorem alloc_create_routing_witness :
    (7 : Nat) < 2 ^ 31 ∧ intOfUIntPtr 7 = (7 : Int) :=
  ⟨by decide,
    (alloc_create_routing defaultSbiEnv (fun _ => 0)).2.2.2.2.2.2 7
      (by decide)⟩

/-! ### IMA securityfs (ima_fs.c part of the source) -/

/-- Shallow embedding of ima_measurements_start: walk the measurement list,
decrementing the requested position at each record, and return the record at
which the counter hit zero, or none when the list ends first. -/
def ima_measurements_start {α : Type} : List α → Nat → Option α
  | [], _ => none
  | qe :: _, 0 => some qe
  | _ :: rest, n + 1 => ima_measurements_start rest n

/-- Link successor of the record at index i in the measurement list: the
list is circular through a sentinel head, so the successor of the last
record is the sentinel, read back as none. -/
def measurementSucc {α : Type} : List α → Nat → Option α
  | [], _ => none
  | [_], 0 => none
  | _ :: b :: _, 0 => some b
  | _ :: rest, i + 1 => measurementSucc rest i

/-- Shallow embedding of ima_measurements_next: given the record at index i
and the iterator position, chase the link of the current record and increment
the position. -/
def ima_measurements_next {α : Type} (l : List α) (i pos : Nat) :
    Option α × Nat :=
  (measurementSucc l i, pos + 1)

/-- Helper: the start walk returns the record at the requested index. -/
lemma ima_measurements_start_eq_get? {α : Type} (l : List α) (p : Nat) :
    ima_measurements_start l p = l.get? p := by
  induction l generalizing p with
  | nil => simp [ima_measurements_start]
  | cons a t ih =>
    cases p with
    | zero => rfl
    | succ q => simpa [ima_measurements_start] using ih q

/-- Helper: the link successor of the record at index i is the record at
index i plus one. -/
lemma measurementSucc_eq_get? {α : Type} (l : List α) (i : Nat) :
    measurementSucc l i = l.get? (i + 1) := by
  induction l generalizing i with
  | nil => simp [measurementSucc]
  | cons a t ih =>
    cases i with
    | zero => cases t <;> simp [measurementSucc]
    | succ j => simpa [measurementSucc] using ih j

/-- Claim C7: reading the measurement log enumerates the records in
insertion order. The iterator started at position p yields the record at
index p (the p plus first record); one next step from the record at index i
yields the record at index i plus one and advances the position by exactly
one; and a start past the last element yields no record. -/
theorem measurement_iteration_in_order {α : Type} (l : List α)
    (p i pos : Nat) :
    ima_measurements_start l p = l.get? p ∧
    (ima_measurements_next l i pos).1 = l.get? (i + 1) ∧
    (ima_measurements_next l i pos).2 = pos + 1 ∧
    (l.length ≤ p → ima_measurements_start l p = none) := by
  refine ⟨ima_measurements_start_eq_get? l p, measurementSucc_eq_get? l i,
    rfl, fun h => ?_⟩
  rw [ima_measurements_start_eq_get? l p]
  exact List.get?_eq_none.mpr h

/-- Claim C7, witness on the three-element list at position 5, which is past
the last element. -/
theorem measurement_iteration_in_order_witness :
    ([10, 20, 30] : List Nat).length ≤ 5 ∧
      ima_measurements_start ([10, 20, 30] : List Nat) 5 = none :=
  ⟨by decide,
    (measurement_iteration_in_order ([10, 20, 30] : List Nat) 5 0 0).2.2.2
      (by decide)⟩

/-- The securityfs entries created by ima_fs_init, identified by the static
dentry variable each is stored in. -/
inductive ImaDentry where
  | binaryRuntimeMeasurements
  | asciiRuntimeMeasurements
  | runtimeMeasurementsCount
  | violations
  | imaPolicy
  | digestsCount
  | digestListData
  | digestListDataDel
deriving DecidableEq

/-- The file-operation tables of ima_fs.c that ima_fs_init installs. -/
inductive ImaFileOps where
  | measurementsOps
  | asciiMeasurementsOps
  | htableValueOps
  | dataUploadOps
deriving DecidableEq

/-- Shallow embedding of the success path of ima_fs_init: the securityfs
files it creates, with the operation table installed on each, in creation
order. The digest-list files exist only when CONFIG_IMA_DIGEST_LIST is set
(the boolean parameter). -/
def ima_fs_init (digestListConfig : Bool) : List (ImaDentry × ImaFileOps) :=
  [(ImaDentry.binaryRuntimeMeasurements, ImaFileOps.measurementsOps),
   (ImaDentry.asciiRuntimeMeasurements, ImaFileOps.asciiMeasurementsOps),
   (ImaDentry.runtimeMeasurementsCount, ImaFileOps.htableValueOps),
   (ImaDentry.violations, ImaFileOps.htableValueOps),
   (ImaDentry.imaPolicy, ImaFileOps.dataUploadOps)] ++
  if digestListConfig then
    [(ImaDentry.digestsCount, ImaFileOps.htableValueOps),
     (ImaDentry.digestListData, ImaFileOps.dataUploadOps),
     (ImaDentry.digestListDataDel, ImaFileOps.dataUploadOps)]
  else []

/-- The atomic counters ima_show_htable_value can read. -/
inductive ImaCounter where
  | htableViolations
  | htableLen
  | digestsHtableLen
deriving DecidableEq

/-- Shallow embedding of the counter-pointer selection of
ima_show_htable_value: the val pointer starts NULL (none) and is set
according to the dentry of the file being read; the digests-count branch is
compiled only under CONFIG_IMA_DIGEST_LIST. -/
def ima_show_htable_value (digestListConfig : Bool) (dentry : ImaDentry) :
    Option ImaCounter :=
  if dentry = ImaDentry.violations then some ImaCounter.htableViolations
  else if dentry = ImaDentry.runtimeMeasurementsCount then
    some ImaCounter.htableLen
  else if digestListConfig = true ∧ dentry = ImaDentry.digestsCount then
    some ImaCounter.digestsHtableLen
  else none

/-- Claim C9: ima_show_htable_value never reads through a NULL counter
pointer. For either configuration, every file that ima_fs_init creates with
the htable-value operations is one of violations, runtime-measurements-count
or (only with digest lists configured) digests-count, and on each of these
the selected counter pointer is non-NULL. -/
theorem htable_value_pointer_nonnull (cfg : Bool) (f : ImaDentry)
    (h : (f, ImaFileOps.htableValueOps) ∈ ima_fs_init cfg) :
    (f = ImaDentry.violations ∨ f = ImaDentry.runtimeMeasurementsCount ∨
      (cfg = true ∧ f = ImaDentry.digestsCount)) ∧
    (ima_show_htable_value cfg f).isSome = true := by
  revert h
  cases cfg <;> cases f <;> decide

/-- Claim C9, witness at the violations file with digest lists configured. -/
theorem htable_value_pointer_nonnull_witness :
    (ImaDentry.violations, ImaFileOps.htableValueOps) ∈ ima_fs_init true ∧
      (ima_show_htable_value true ImaDentry.violations).isSome = true :=
  ⟨by decide,
    (htable_value_pointer_nonnull true ImaDentry.violations (by decide)).2⟩

/-- Linux errno values used by ima_write_data (from the kernel uapi headers;
the function returns their negations). -/
def EINVAL : Int := 22

def EFBIG : Int := 27

def ENOMEM : Int := 12

def EFAULT : Int := 14

def EINTR : Int := 4

def EACCES : Int := 13

/-- Environment of one ima_write_data call: outcomes of the kernel services
and parsers it may invoke, and the relevant data properties. The parsing
helpers (ima_read_file, ima_parse_add_rule, ima_parse_compact_list) live in
other translation units and are summarized by their result values. -/
structure ImaWriteEnv where
  vmallocOk : Bool
  copyOk : Bool
  mutexOk : Bool
  dataStartsWithSlash : Bool
  readFileResult : Int
  appraisePolicy : Bool
  parseRuleResult : Int
  currentIsParserTask : Bool
  parseCompactAddResult : Int
  parseCompactDelResult : Int

/-- Observable outcome of one ima_write_data call: the returned result, and
whether the call reached copy_from_user, invoked any policy or digest-list
parser, or cleared the static valid_policy flag on the way out. -/
structure ImaWriteOut where
  result : Int
  copyAttempted : Bool
  parserInvoked : Bool
  validPolicyCleared : Bool
deriving DecidableEq

/-- Shallow embedding of ima_write_data. The guards appear in source order:
nonzero file offset, oversized length, vmalloc failure, copy_from_user
failure, interrupted mutex acquisition, then the dentry dispatch. Every exit
passes the out label, which clears valid_policy when the file is the policy
file and the result is negative. -/
def ima_write_data (env : ImaWriteEnv) (dentry : ImaDentry) (ppos : Nat)
    (datalen : Nat) : ImaWriteOut :=
  let finish : Int → Bool → Bool → ImaWriteOut := fun res copy parse =>
    { result := res, copyAttempted := copy, parserInvoked := parse,
      validPolicyCleared :=
        decide (dentry = ImaDentry.imaPolicy) && decide (res < 0) }
  if ppos ≠ 0 then finish (-EINVAL) false false
  else if 64 * 1024 * 1024 - 1 < datalen then finish (-EFBIG) false false
  else if env.vmallocOk = false then finish (-ENOMEM) false false
  else if env.copyOk = false then finish (-EFAULT) true false
  else if env.mutexOk = false then finish (-EINTR) true false
  else if env.dataStartsWithSlash then finish env.readFileResult true true
  else if dentry = ImaDentry.imaPolicy then
    if env.appraisePolicy then finish (-EACCES) true false
    else finish env.parseRuleResult true true
  else if dentry = ImaDentry.digestListData then
    if env.currentIsParserTask = false then finish (-EACCES) true false
    else finish env.parseCompactAddResult true true
  else if dentry = ImaDentry.digestListDataDel then
    if env.currentIsParserTask = false then finish (-EACCES) true false
    else finish env.parseCompactDelResult true true
  else finish (-EINVAL) true false

/-- A concrete write environment for instantiating the C8 theorems. -/
def defaultImaWriteEnv : ImaWriteEnv where
  vmallocOk := true
  copyOk := true
  mutexOk := true
  dataStartsWithSlash := false
  readFileResult := 0
  appraisePolicy := false
  parseRuleResult := 0
  currentIsParserTask := false
  parseCompactAddResult := 0
  parseCompactDelResult := 0

/-- Claim C8, counterexample: the claim states that every oversized write
fails with -EFBIG and that a rejected write changes no state. At the concrete
input (policy file, offset 1, length 64*1024*1024) the length exceeds the
limit yet the result is -EINVAL, not -EFBIG (the offset guard fires first),
and the failing write does clear the static valid_policy flag of the policy
file. -/
theorem oversized_write_not_efbig_and_flag_cleared :
    64 * 1024 * 1024 - 1 < (64 * 1024 * 1024 : Nat) ∧
    (ima_write_data defaultImaWriteEnv ImaDentry.imaPolicy 1
      (64 * 1024 * 1024)).result = -EINVAL ∧
    (ima_write_data defaultImaWriteEnv ImaDentry.imaPolicy 1
      (64 * 1024 * 1024)).result ≠ -EFBIG ∧
    (ima_write_data defaultImaWriteEnv ImaDentry.imaPolicy 1
      (64 * 1024 * 1024)).validPolicyCleared = true := by
  refine ⟨by norm_num, ?_, ?_, ?_⟩ <;> decide

/-- Claim C8, amended: a write at a nonzero offset fails with -EINVAL
whatever its length; a write at offset zero whose length exceeds
64*1024*1024 - 1 fails with -EFBIG. In both cases the failure occurs before
copy_from_user runs and before any policy or digest-list parser is invoked,
so no policy rules or digest-list entries change; however, when the target is
the policy file the failed write clears the static valid_policy flag. -/
theorem write_data_early_validation (env : ImaWriteEnv) (dentry : ImaDentry)
    (ppos datalen : Nat) :
    (ppos ≠ 0 →
      (ima_write_data env dentry ppos datalen).result = -EINVAL ∧
      (ima_write_data env dentry ppos datalen).copyAttempted = false ∧
      (ima_write_data env dentry ppos datalen).parserInvoked = false ∧
      ((ima_write_data env dentry ppos datalen).validPolicyCleared = true ↔
        dentry = ImaDentry.imaPolicy)) ∧
    (ppos = 0 → 64 * 1024 * 1024 - 1 < datalen →
      (ima_write_data env dentry ppos datalen).result = -EFBIG ∧
      (ima_write_data env dentry ppos datalen).copyAttempted = false ∧
      (ima_write_data env dentry ppos datalen).parserInvoked = false ∧
      ((ima_write_data env dentry ppos datalen).validPolicyCleared = true ↔
        dentry = ImaDentry.imaPolicy)) := by
  constructor
  · intro hpos
    simp [ima_write_data, hpos, EINVAL, decide_eq_true_iff]
  · intro hpos hlen
    subst hpos
    simp [ima_write_data, hlen, EFBIG, decide_eq_true_iff]

/-- Claim C8, witness: the nonzero-offset clause at the digest-list file,
offset 1, length 0. -/
theorem write_data_early_validation_witness :
    (1 : Nat) ≠ 0 ∧
      ((ima_write_data defaultImaWriteEnv ImaDentry.digestListData 1
          0).result = -EINVAL ∧
        (ima_write_data defaultImaWriteEnv ImaDentry.digestListData 1
          0).copyAttempted = false ∧
        (ima_write_data defaultImaWriteEnv ImaDentry.digestListData 1
          0).parserInvoked = false ∧
        ((ima_write_data defaultImaWriteEnv ImaDentry.digestListData 1
          0).validPolicyCleared = true ↔
          ImaDentry.digestListData = ImaDentry.imaPolicy)) :=
  ⟨by decide,
    (write_data_early_validation defaultImaWriteEnv ImaDentry.digestListData
      1 0).1 (by decide)⟩
